import Mathlib

/-!
# Verification of the Silver-Tier approval-gated task execution pipeline

Shallow embedding of `src/mcp_server/mcp_server.js` (the MCP tool server:
`handleSendEmail`, `handlePostLinkedin`, `handleCheckEmailConfig` and the
`CallToolRequestSchema` dispatcher) together with a model of the approval
pipeline (Approval Gate, Approval Resolution Scanner, Action Executor)
described by the specification and by the Approval_Handler_Skill document.

External effects (SMTP send, LinkedIn HTTPS call) are represented by
outcome oracles passed as arguments; each handler result additionally
records whether the external transport was consulted (`smtpCalled`,
`networkCalled`), so "no network call is made" is a provable statement.
JavaScript strings are modelled as Lean `String` (JS `.length` counts
UTF-16 units, Lean counts characters; they agree on the ASCII inputs the
properties are about), and JS `undefined`-able parameters as `Option`.
-/

set_option maxHeartbeats 1000000
set_option maxRecDepth 8192

namespace SilverTier

/-- JS truthiness of an optional string argument: `undefined` and `""` are falsy. -/
def jsTruthy : Option String → Bool
  | none => false
  | some s => !s.toList.isEmpty

/-- JS `x || d` for an optional string: the default replaces both `undefined` and `""`. -/
def jsOr (x : Option String) (d : String) : String :=
  match x with
  | none => d
  | some s => if s.toList.isEmpty then d else s

/-- JS `String.prototype.toUpperCase` (ASCII behaviour). -/
def toUpperCase (s : String) : String := String.mk (s.toList.map Char.toUpper)

/-- JS `String.prototype.trim`: strip leading and trailing whitespace. -/
def jsTrim (s : String) : List Char :=
  ((s.toList.dropWhile Char.isWhitespace).reverse.dropWhile Char.isWhitespace).reverse

/-- JS `String.prototype.substring(0, n)`. -/
def jsTake (s : String) (n : Nat) : String := String.mk (s.toList.take n)

/-- A character admitted by the character class `[^\s@]` of the email regex. -/
def isEmailChar (c : Char) : Bool := !c.isWhitespace && c != '@'

/-- The test `/^[^\s@]+@[^\s@]+\.[^\s@]+$/.test s` from `handleSendEmail`
(mcp_server.js line 220): exactly one `@` (neither character class admits
`@`); a non-empty local part of non-space non-`@` characters; a domain
part of such characters containing a `.` that is neither its first nor
its last character. -/
def emailRegexTest (s : String) : Bool :=
  let cs := s.toList
  let localPart := cs.takeWhile (· != '@')
  match cs.dropWhile (· != '@') with
  | '@' :: domainPart =>
      !localPart.isEmpty && localPart.all isEmailChar &&
      !domainPart.isEmpty && domainPart.all isEmailChar &&
      ((domainPart.drop 1).dropLast.contains '.')
  | _ => false

/-! ## send_email (mcp_server.js lines 208-280) -/

/-- Arguments of the `send_email` tool. JS `from` is the Lean field `fromAddr`
(`from` is a Lean keyword); absent optional arguments are `none`; JS
`html = false` destructuring default is the `Bool` field directly. -/
structure SendEmailParams where
  toAddr : Option String
  subject : Option String
  body : Option String
  fromAddr : Option String
  html : Bool
deriving DecidableEq

/-- The `mailOptions` object built by `handleSendEmail`. -/
structure MailOptions where
  fromAddr : String
  toAddr : String
  subject : String
  body : String
  html : Bool
deriving DecidableEq

/-- What `transporter.sendMail` would report if consulted: the resolved
`info` (`messageId`, Ethereal preview URL when available) or a rejection
(`error.message`, `error.code`). -/
inductive SmtpSendOutcome
  | ok (messageId : String) (previewUrl : Option String)
  | err (message : String) (code : Option String)
deriving DecidableEq

/-- The result object returned by `handleSendEmail`, one constructor per
`return` site of the JS function. -/
inductive SendEmailResult
  | missingParams (error : String)
  | invalidEmail (error : String)
  | mockLogged (message : String) (details : MailOptions)
  | sent (messageId : String) (toAddr : String) (subject : String) (previewUrl : Option String)
  | sendFailed (error : String) (code : Option String)
deriving DecidableEq

/-- `success` field of the returned object. -/
def SendEmailResult.success : SendEmailResult → Bool
  | .mockLogged _ _ => true
  | .sent _ _ _ _ => true
  | _ => false

/-- The `messageId` field when the returned object has one. -/
def SendEmailResult.messageId? : SendEmailResult → Option String
  | .sent mid _ _ _ => some mid
  | _ => none

/-- Whether the result is one of the two validation-failure returns
(missing required parameters / invalid email address format). -/
def SendEmailResult.isValidationFailure : SendEmailResult → Bool
  | .missingParams _ => true
  | .invalidEmail _ => true
  | _ => false

/-- The keys of the JS object literal each return site produces. -/
def SendEmailResult.jsFields : SendEmailResult → List String
  | .missingParams _ => ["success", "error"]
  | .invalidEmail _ => ["success", "error"]
  | .mockLogged _ _ => ["success", "mode", "message", "details"]
  | .sent _ _ _ url =>
      ["success", "messageId", "to", "subject"] ++
        (match url with | some _ => ["previewUrl"] | none => [])
  | .sendFailed _ _ => ["success", "error", "code"]

/-- Result of a `handleSendEmail` call plus the ghost flag recording whether
`transporter.sendMail` was invoked (external SMTP I/O). -/
structure EmailOutcome where
  result : SendEmailResult
  smtpCalled : Bool
deriving DecidableEq

/-- `handleSendEmail` (mcp_server.js lines 208-280). `transporter = none`
models the mock mode (global `transporter === null`); `some o` models a
configured transporter whose `sendMail` resolves/rejects as `o` describes.
`testMode` is the global `TEST_MODE`. -/
def handleSendEmail (defaultFrom : String) (testMode : Bool)
    (transporter : Option SmtpSendOutcome) (params : SendEmailParams) : EmailOutcome :=
  let fromAddr := params.fromAddr.getD defaultFrom
  if !jsTruthy params.toAddr || !jsTruthy params.subject || !jsTruthy params.body then
    { result := .missingParams "Missing required parameters: to, subject, and body are required",
      smtpCalled := false }
  else
    let toAddr := params.toAddr.getD ""
    let subject := params.subject.getD ""
    let body := params.body.getD ""
    if !emailRegexTest toAddr then
      { result := .invalidEmail ("Invalid email address format: " ++ toAddr), smtpCalled := false }
    else
      let mailOptions : MailOptions :=
        { fromAddr := fromAddr, toAddr := toAddr, subject := subject, body := body, html := params.html }
      match transporter with
      | none =>
          { result := .mockLogged "Email logged (mock mode - no SMTP configured)" mailOptions,
            smtpCalled := false }
      | some (.ok messageId url) =>
          { result := .sent messageId toAddr subject
              (if !messageId.toList.isEmpty && testMode then url else none),
            smtpCalled := true }
      | some (.err msg code) =>
          { result := .sendFailed msg code, smtpCalled := true }

/-- `TEST_MODE` (line 51): the env switch, or no configured SMTP user. -/
def computeTestMode (testModeEnv : Bool) (smtpUser : String) : Bool :=
  testModeEnv || smtpUser.toList.isEmpty

/-- `initializeTransporter` (lines 80-105). In test mode with no SMTP user
it tries to create an Ethereal test account: success yields a live Ethereal
transporter (`etherealTransporter`), failure leaves `transporter = null`
(mock mode). Otherwise the configured SMTP transporter is used. -/
def initializeTransporter (testMode : Bool) (smtpUser : String)
    (etherealTransporter : Option SmtpSendOutcome)
    (configuredTransporter : SmtpSendOutcome) : Option SmtpSendOutcome :=
  if testMode && smtpUser.toList.isEmpty then etherealTransporter
  else some configuredTransporter

/-! ## post_linkedin (mcp_server.js lines 291-400) -/

/-- Arguments of the `post_linkedin` tool. -/
structure LinkedInParams where
  content : Option String
  visibility : Option String
deriving DecidableEq

/-- What the `fetch` of the LinkedIn UGC API would produce if performed:
a 2xx response carrying `data.id`, a non-ok HTTP status with its error
body, or a thrown network error. -/
inductive LinkedInApiOutcome
  | ok (id : Option String)
  | httpError (status : Nat) (body : String)
  | threw (message : String)
deriving DecidableEq

/-- The result object returned by `handlePostLinkedin`, one constructor per
`return` site of the JS function. -/
inductive LinkedInResult
  | missingContent (error : String)
  | tooLong (error : String)
  | invalidVisibility (error : String)
  | testPosted (message : String) (postId : String) (postUrl : String)
      (content : String) (visibility : String) (characterCount : Nat) (note : String)
  | livePosted (postId : String) (postUrl : String) (visibility : String) (characterCount : Nat)
  | apiError (error : String) (details : String)
  | postFailed (error : String)
deriving DecidableEq

/-- `success` field of the returned object. -/
def LinkedInResult.success : LinkedInResult → Bool
  | .testPosted _ _ _ _ _ _ _ => true
  | .livePosted _ _ _ _ => true
  | _ => false

/-- The `postId` field when the returned object has one. -/
def LinkedInResult.postId? : LinkedInResult → Option String
  | .testPosted _ pid _ _ _ _ _ => some pid
  | .livePosted pid _ _ _ => some pid
  | _ => none

/-- The `visibility` field when the returned object has one. -/
def LinkedInResult.visibility? : LinkedInResult → Option String
  | .testPosted _ _ _ _ vis _ _ => some vis
  | .livePosted _ _ vis _ => some vis
  | _ => none

/-- The `mode` field when the returned object has one. -/
def LinkedInResult.mode? : LinkedInResult → Option String
  | .testPosted _ _ _ _ _ _ _ => some "test"
  | .livePosted _ _ _ _ => some "live"
  | _ => none

/-- The keys of the JS object literal each return site produces. -/
def LinkedInResult.jsFields : LinkedInResult → List String
  | .missingContent _ => ["success", "error"]
  | .tooLong _ => ["success", "error"]
  | .invalidVisibility _ => ["success", "error"]
  | .testPosted _ _ _ _ _ _ _ =>
      ["success", "mode", "message", "postId", "postUrl", "content", "visibility",
       "characterCount", "note"]
  | .livePosted _ _ _ _ =>
      ["success", "mode", "postId", "postUrl", "visibility", "characterCount"]
  | .apiError _ _ => ["success", "error", "details"]
  | .postFailed _ => ["success", "error"]

/-- Result of a `handlePostLinkedin` call plus the ghost flag recording
whether the LinkedIn API `fetch` was performed. -/
structure LinkedInOutcome where
  result : LinkedInResult
  networkCalled : Bool
deriving DecidableEq

/-- `handlePostLinkedin` (mcp_server.js lines 291-400). `linkedinTestMode`
is the global `LINKEDIN_TEST_MODE`; `now` is `Date.now()`; `api` is the
oracle for the `fetch` of the live branch. -/
def handlePostLinkedin (linkedinTestMode : Bool) (now : Nat) (api : LinkedInApiOutcome)
    (params : LinkedInParams) : LinkedInOutcome :=
  let content := params.content.getD ""
  let visibility := params.visibility.getD "PUBLIC"
  if !jsTruthy params.content || (jsTrim content).isEmpty then
    { result := .missingContent "Missing required parameter: content cannot be empty",
      networkCalled := false }
  else if 3000 < content.length then
    { result := .tooLong ("Post content too long: " ++ toString content.length ++
        " characters (max 3000)"),
      networkCalled := false }
  else
    let vis := toUpperCase visibility
    if !(vis = "PUBLIC" || vis = "CONNECTIONS") then
      { result := .invalidVisibility ("Invalid visibility \"" ++ visibility ++
          "\". Must be PUBLIC or CONNECTIONS"),
        networkCalled := false }
    else if linkedinTestMode then
      let demoPostId := "demo-" ++ toString now
      { result := .testPosted "LinkedIn post logged (test mode - no API credentials configured)"
          demoPostId
          ("https://www.linkedin.com/feed/update/" ++ demoPostId)
          (jsTake content 200 ++ (if 200 < content.length then "..." else ""))
          vis content.length
          "Set LINKEDIN_ACCESS_TOKEN and LINKEDIN_PERSON_URN for live posting",
        networkCalled := false }
    else
      match api with
      | .ok id =>
          let postId := jsOr id "unknown"
          { result := .livePosted postId
              ("https://www.linkedin.com/feed/update/" ++ postId) vis content.length,
            networkCalled := true }
      | .httpError status body =>
          { result := .apiError ("LinkedIn API error: " ++ toString status) body,
            networkCalled := true }
      | .threw msg =>
          { result := .postFailed msg, networkCalled := true }

/-- `LINKEDIN_TEST_MODE` (line 67): set when either credential is absent. -/
def computeLinkedInTestMode (accessToken personUrn : String) : Bool :=
  accessToken.toList.isEmpty || personUrn.toList.isEmpty

/-! ## check_email_config (mcp_server.js lines 408-433) -/

/-- The config object returned by `handleCheckEmailConfig`. -/
structure EmailConfigResult where
  testMode : Bool
  smtpHost : String
  smtpPort : Nat
  hasCredentials : Bool
  defaultFrom : String
  connectionStatus : String
  message : String
deriving DecidableEq

/-- The server-process environment visible to the tool handlers:
SMTP configuration, the initialized transporter (with oracles for what its
`sendMail` and `verify` would do), LinkedIn mode, clock and fetch oracle. -/
structure ServerEnv where
  smtpHost : String
  smtpPort : Nat
  smtpUser : String
  defaultFrom : String
  testMode : Bool
  transporter : Option SmtpSendOutcome
  verifyError : Option String
  linkedinTestMode : Bool
  now : Nat
  linkedinApi : LinkedInApiOutcome
deriving DecidableEq

/-- `handleCheckEmailConfig` (mcp_server.js lines 408-433). `verifyError`
is what `transporter.verify()` would report (`none` = verified). -/
def handleCheckEmailConfig (env : ServerEnv) : EmailConfigResult :=
  let base : EmailConfigResult :=
    { testMode := env.testMode, smtpHost := env.smtpHost, smtpPort := env.smtpPort,
      hasCredentials := !env.smtpUser.toList.isEmpty, defaultFrom := env.defaultFrom,
      connectionStatus := "", message := "" }
  match env.transporter with
  | some _ =>
      match env.verifyError with
      | none =>
          { base with connectionStatus := "connected",
                      message := "SMTP connection verified successfully" }
      | some e =>
          { base with connectionStatus := "error", message := "Connection failed: " ++ e }
  | none =>
      { base with connectionStatus := "mock",
                  message := "Running in mock mode (no SMTP configured)" }

/-! ## The CallToolRequestSchema dispatcher (mcp_server.js lines 464-519) -/

/-- The `arguments` object of a tool-call request: the union of the fields
the three handlers destructure (JS objects are duck-typed). -/
structure ToolArguments where
  toAddr : Option String
  subject : Option String
  body : Option String
  fromAddr : Option String
  html : Bool
  content : Option String
  visibility : Option String
deriving DecidableEq

/-- Projection of the request arguments onto `handleSendEmail`'s parameters. -/
def ToolArguments.emailParams (a : ToolArguments) : SendEmailParams :=
  { toAddr := a.toAddr, subject := a.subject, body := a.body,
    fromAddr := a.fromAddr, html := a.html }

/-- Projection of the request arguments onto `handlePostLinkedin`'s parameters. -/
def ToolArguments.linkedinParams (a : ToolArguments) : LinkedInParams :=
  { content := a.content, visibility := a.visibility }

/-- A handler's result, tagged by which handler produced it. -/
inductive ToolResult
  | email (r : SendEmailResult)
  | linkedin (r : LinkedInResult)
  | config (r : EmailConfigResult)
deriving DecidableEq

/-- The `content[0].text` of a tool-call response: either
`JSON.stringify(result, null, 2)` of a handler result, or the
`JSON.stringify` of an error object built by the `default` case or the
`catch` clause. -/
inductive ToolCallContent
  | resultJson (r : ToolResult)
  | errorJson (message : String)
deriving DecidableEq

/-- The object returned by the `CallToolRequestSchema` handler: content
plus the `isError` flag (absent in JS is modelled as `false`). -/
structure ToolCallResponse where
  content : ToolCallContent
  isError : Bool
deriving DecidableEq

/-- The three names the `switch` of the dispatcher recognizes. -/
def knownToolName (name : String) : Bool :=
  name = "send_email" || name = "post_linkedin" || name = "check_email_config"

/-- The `switch` + `try`/`catch` skeleton of the `CallToolRequestSchema`
handler (mcp_server.js lines 470-518), parametrized by what running the
matched handler does: `run name = .ok r` models a handler resolving with
result `r`, `run name = .error msg` models a thrown exception with message
`msg` (caught by the `catch` clause and wrapped). The second component
lists the handlers invoked: the `default` case invokes none. -/
def dispatchToolCall (name : String) (run : String → Except String ToolResult) :
    ToolCallResponse × List String :=
  if knownToolName name then
    match run name with
    | .ok r => ({ content := .resultJson r, isError := false }, [name])
    | .error msg => ({ content := .errorJson msg, isError := true }, [name])
  else
    ({ content := .errorJson ("Unknown tool: " ++ name), isError := true }, [])

/-- The embedded handlers as the dispatcher's `run` function (none of the
embedded handlers throws; each resolves with its result object). -/
def runTool (env : ServerEnv) (args : ToolArguments) : String → Except String ToolResult :=
  fun n =>
    if n = "send_email" then
      .ok (.email (handleSendEmail env.defaultFrom env.testMode env.transporter
        args.emailParams).result)
    else if n = "post_linkedin" then
      .ok (.linkedin (handlePostLinkedin env.linkedinTestMode env.now env.linkedinApi
        args.linkedinParams).result)
    else if n = "check_email_config" then
      .ok (.config (handleCheckEmailConfig env))
    else
      .error ("Unknown tool: " ++ n)

/-- The concrete `CallToolRequestSchema` handler over the embedded tool
handlers. -/
def handleCallToolRequest (env : ServerEnv) (name : String) (args : ToolArguments) :
    ToolCallResponse × List String :=
  dispatchToolCall name (runTool env args)

/-!
## The approval-gated task pipeline

The task lifecycle, Approval Gate, Task Store, Approval Resolution Scanner
and Action Executor are described by the specification (sections 3, 4)
and by the repository's Approval_Handler_Skill document; the repository
contains no executable implementation of them, so they are modelled from
the spec below.  Handler invocations are the externally observable events:
the model records each one in a ghost audit trace, and each invocation is
driven by an outcome oracle `env : Nat → Nat → HandlerOutcome` giving the
handler's result for (task id, action index).
-/

/-- Modelled from the spec: task lifecycle statuses (section 4.1 state
machine); the repository source contains only the prose state machine. -/
inductive Status
  | created
  | pending_approval
  | approved_executing
  | completed
  | rejected
  | execution_failed
deriving DecidableEq

/-- Modelled from the spec: where the task file lives
(`/Needs_Action/`, `/Pending_Approval/`, `/Done/` in the skill document);
`execution_failed` tasks stay in `/Pending_Approval/` (Step 4). -/
inductive TaskLocation
  | needsAction
  | pendingApproval
  | done
deriving DecidableEq

/-- Modelled from the spec: what a registered handler reports for one
action invocation (section 4.4 steps 3-5). -/
inductive HandlerOutcome
  | ok (detail : String)
  | fail (errorDetail : String)
deriving DecidableEq

/-- Modelled from the spec: the Action Registry's `alwaysRequiresApproval`
policy bit (section 4.5): both canonical actions are marked; the social
action is `post_linkedin` in the source and `publish_social_post` in the
spec, both names are registered. -/
def registryAlwaysRequiresApproval (a : String) : Bool :=
  a = "send_email" || a = "publish_social_post" || a = "post_linkedin"

/-- Modelled from the spec: the Action Registry lookup (section 4.5 and
4.4 step 1); `some b` is a registered action with `alwaysRequiresApproval
= b`, `none` is a registry miss (`UnknownActionError`). -/
def actionRegistry (a : String) : Option Bool :=
  if a = "send_email" || a = "publish_social_post" || a = "post_linkedin" then some true
  else if a = "check_email_config" then some false
  else none

/-- Modelled from the spec: the Approval Gate classification (section
4.1): approval is required iff some referenced action is marked
`alwaysRequiresApproval` or the originator explicitly requested gating.
It does not read the payload. -/
def classify (actionRefs : List String) (requestedGate : Bool) : Bool :=
  actionRefs.any registryAlwaysRequiresApproval || requestedGate

/-- Modelled from the spec: a Task record (section 3 data model) with two
ghost fields: `visitedPending` records that the task has been in
`pending_approval` at some earlier point, `approvals` counts the
successful guarded `pending_approval -> approved_executing` transitions
(approval events) consumed so far. -/
structure PipeTask where
  actionRefs : List String
  payload : List (String × String)
  status : Status
  approvalRequired : Bool
  approvedFlag : Bool
  rejectionMarker : Bool
  retryCount : Nat
  executionResult : Option String
  nextAction : Nat
  visitedPending : Bool
  approvals : Nat
  location : TaskLocation
deriving DecidableEq

/-- Modelled from the spec: one ghost audit record per handler invocation,
capturing the invoked task's id, the action index and identifier, and the
task's `approvalRequired`, `visitedPending` and `approvedFlag` at the
moment of invocation (`marked` records whether some referenced action is
`alwaysRequiresApproval`). -/
structure AuditEvent where
  taskId : Nat
  actionIdx : Nat
  action : String
  marked : Bool
  required : Bool
  visitedPending : Bool
  approvedFlag : Bool
deriving DecidableEq

/-- Modelled from the spec: the Task Store (section 4.2) plus the ghost
invocation trace. -/
structure PipeStore where
  tasks : Nat → Option PipeTask
  nextId : Nat
  trace : List AuditEvent

/-- Store update at one id. -/
def PipeStore.set (s : PipeStore) (id : Nat) (t : PipeTask) : PipeStore :=
  { s with tasks := fun j => if j = id then some t else s.tasks j }

/-- Modelled from the spec: task creation (section 6 `create`): a fresh id,
`status = created`, `approvalRequired` computed once by the Approval Gate. -/
def createTask (refs : List String) (payload : List (String × String))
    (requestedGate : Bool) : PipeTask :=
  { actionRefs := refs, payload := payload, status := .created,
    approvalRequired := classify refs requestedGate,
    approvedFlag := false, rejectionMarker := false, retryCount := 0,
    executionResult := none, nextAction := 0, visitedPending := false,
    approvals := 0, location := .needsAction }

def applyCreate (s : PipeStore) (refs : List String) (payload : List (String × String))
    (requestedGate : Bool) : PipeStore :=
  { s with
    tasks := fun j => if j = s.nextId then some (createTask refs payload requestedGate)
                      else s.tasks j,
    nextId := s.nextId + 1 }

/-- Modelled from the spec: the `created` transitions of the section 4.1
state machine: a gated task moves to `pending_approval`, an ungated one
directly to `approved_executing`.  A non-`created` task is untouched. -/
def applyGate (s : PipeStore) (id : Nat) : PipeStore :=
  match s.tasks id with
  | none => s
  | some t =>
      if t.status = .created then
        if t.approvalRequired then
          s.set id { t with status := .pending_approval, visitedPending := true,
                            location := .pendingApproval }
        else
          s.set id { t with status := .approved_executing }
      else s

/-- Modelled from the spec: the human decision surface (section 6) sets
`approvedFlag` on a `pending_approval` task; the core never writes it. -/
def applyHumanApprove (s : PipeStore) (id : Nat) : PipeStore :=
  match s.tasks id with
  | none => s
  | some t =>
      if t.status = .pending_approval then s.set id { t with approvedFlag := true } else s

/-- Modelled from the spec: the human decision surface sets the rejection
marker on a `pending_approval` task. -/
def applyHumanReject (s : PipeStore) (id : Nat) : PipeStore :=
  match s.tasks id with
  | none => s
  | some t =>
      if t.status = .pending_approval then s.set id { t with rejectionMarker := true } else s

/-- Modelled from the spec: the scanner's guarded transition
`pending_approval -> approved_executing` (section 4.3 step 3): it fires
only when the task is still `pending_approval` with `approvedFlag = true`;
otherwise (`StaleStateError`) nothing is mutated.  It counts one approval
event and resets the execution cursor. -/
def applyScanApprove (s : PipeStore) (id : Nat) : PipeStore :=
  match s.tasks id with
  | none => s
  | some t =>
      if t.status = .pending_approval ∧ t.approvedFlag = true then
        s.set id { t with status := .approved_executing, approvals := t.approvals + 1,
                          nextAction := 0 }
      else s

/-- Modelled from the spec: the scanner's guarded transition
`pending_approval -> rejected` (section 4.3 step 4); no executor
invocation ever occurs for it. -/
def applyScanReject (s : PipeStore) (id : Nat) : PipeStore :=
  match s.tasks id with
  | none => s
  | some t =>
      if t.status = .pending_approval ∧ t.rejectionMarker = true then
        s.set id { t with status := .rejected, location := .done }
      else s

/-- Modelled from the spec: one Action Executor step (section 4.4) on an
`approved_executing` task: look up the next action in the registry (a miss
is a fatal `UnknownActionError` with no handler invocation), invoke the
handler (recorded in the ghost trace), then advance on success — reaching
`completed` after the last action — or land in `execution_failed` on
failure, incrementing `retryCount`, recording the error detail and keeping
the task out of `/Done/` (skill document Step 4). -/
def applyInvoke (env : Nat → Nat → HandlerOutcome) (s : PipeStore) (id : Nat) : PipeStore :=
  match s.tasks id with
  | none => s
  | some t =>
      if t.status = .approved_executing then
        match t.actionRefs[t.nextAction]? with
        | none =>
            s.set id { t with status := .completed, location := .done }
        | some a =>
            match actionRegistry a with
            | none =>
                s.set id { t with status := .execution_failed,
                                  retryCount := t.retryCount + 1,
                                  executionResult := some ("UnknownActionError: " ++ a),
                                  location := .pendingApproval }
            | some _ =>
                match env id t.nextAction with
                | .ok detail =>
                    if t.nextAction + 1 = t.actionRefs.length then
                      { s.set id
                          { t with nextAction := t.nextAction + 1, status := .completed,
                                   executionResult := some detail, location := .done }
                        with trace := s.trace ++
                          [{ taskId := id, actionIdx := t.nextAction, action := a,
                             marked := t.actionRefs.any registryAlwaysRequiresApproval,
                             required := t.approvalRequired,
                             visitedPending := t.visitedPending,
                             approvedFlag := t.approvedFlag }] }
                    else
                      { s.set id
                          { t with nextAction := t.nextAction + 1,
                                   executionResult := some detail }
                        with trace := s.trace ++
                          [{ taskId := id, actionIdx := t.nextAction, action := a,
                             marked := t.actionRefs.any registryAlwaysRequiresApproval,
                             required := t.approvalRequired,
                             visitedPending := t.visitedPending,
                             approvedFlag := t.approvedFlag }] }
                | .fail err =>
                    { s.set id
                        { t with status := .execution_failed,
                                 retryCount := t.retryCount + 1,
                                 executionResult := some err,
                                 location := .pendingApproval }
                      with trace := s.trace ++
                        [{ taskId := id, actionIdx := t.nextAction, action := a,
                           marked := t.actionRefs.any registryAlwaysRequiresApproval,
                           required := t.approvalRequired,
                           visitedPending := t.visitedPending,
                           approvedFlag := t.approvedFlag }] }
      else s

/-- Modelled from the spec: the manual escape hatch (section 4.1):
an operator resets the decision on an `execution_failed` task, re-entering
`pending_approval`; a later approval is a fresh approval event. -/
def applyOperatorReset (s : PipeStore) (id : Nat) : PipeStore :=
  match s.tasks id with
  | none => s
  | some t =>
      if t.status = .execution_failed then
        s.set id { t with status := .pending_approval, approvedFlag := false,
                          rejectionMarker := false, nextAction := 0,
                          location := .pendingApproval }
      else s

/-- Modelled from the spec: the interleaving semantics (section 5): any
number of concurrent scanner cycles, human edits and executor steps race
on the shared store; every schedule is an interleaving of these atomic
steps.  Steps whose guard fails (`StaleStateError` losers, edits to
missing tasks) leave the store unchanged. -/
inductive PipeStep (env : Nat → Nat → HandlerOutcome) : PipeStore → PipeStore → Prop
  | create (s : PipeStore) (refs : List String) (payload : List (String × String))
      (requestedGate : Bool) : PipeStep env s (applyCreate s refs payload requestedGate)
  | gate (s : PipeStore) (id : Nat) : PipeStep env s (applyGate s id)
  | humanApprove (s : PipeStore) (id : Nat) : PipeStep env s (applyHumanApprove s id)
  | humanReject (s : PipeStore) (id : Nat) : PipeStep env s (applyHumanReject s id)
  | scanApprove (s : PipeStore) (id : Nat) : PipeStep env s (applyScanApprove s id)
  | scanReject (s : PipeStore) (id : Nat) : PipeStep env s (applyScanReject s id)
  | invoke (s : PipeStore) (id : Nat) : PipeStep env s (applyInvoke env s id)
  | operatorReset (s : PipeStore) (id : Nat) : PipeStep env s (applyOperatorReset s id)

/-- The empty initial store. -/
def initStore : PipeStore :=
  { tasks := fun _ => none, nextId := 0, trace := [] }

/-- Stores reachable from the empty store by any interleaving of steps. -/
inductive Reachable (env : Nat → Nat → HandlerOutcome) : PipeStore → Prop
  | init : Reachable env initStore
  | step {s s' : PipeStore} : Reachable env s → PipeStep env s s' → Reachable env s'

/-- Ghost invocation counting: events of the trace invoking action index
`k` of task `id`. -/
def isInvokeOf (id k : Nat) (e : AuditEvent) : Bool :=
  e.taskId = id && e.actionIdx = k

def invokeCount (s : PipeStore) (id k : Nat) : Nat :=
  (s.trace.filter (isInvokeOf id k)).length

/-!
### The sequential scanner `scanOnce` (sections 4.3, 4.4)

A single scan cycle resolves every `pending_approval` task: a rejected
task is archived, an approved one is handed to the Action Executor, which
runs its actions in order until the first failure.  On the question of a
task showing both decisions, the spec (section 9) resolves it as
"rejection wins".
-/

/-- The indices `[start, start+1, ..., start+len-1]`. -/
def consecutive (start : Nat) : Nat → List Nat
  | 0 => []
  | n + 1 => start :: consecutive (start + 1) n

/-- Modelled from the spec: the Action Executor's loop (section 4.4) over
the remaining action list, `k` the index of its head; returns the updated
task and the indices of the actions actually invoked. -/
def executeFrom (env : Nat → Nat → HandlerOutcome) (id : Nat) :
    List String → Nat → PipeTask → PipeTask × List Nat
  | [], _, t => ({ t with status := .completed, location := .done }, [])
  | a :: rest, k, t =>
      match actionRegistry a with
      | none =>
          ({ t with status := .execution_failed, retryCount := t.retryCount + 1,
                    executionResult := some ("UnknownActionError: " ++ a),
                    location := .pendingApproval }, [])
      | some _ =>
          match env id k with
          | .ok detail =>
              let r := executeFrom env id rest (k + 1)
                { t with executionResult := some detail, nextAction := k + 1 }
              (r.fst, k :: r.snd)
          | .fail err =>
              ({ t with status := .execution_failed, retryCount := t.retryCount + 1,
                        executionResult := some err, location := .pendingApproval }, [k])

/-- Modelled from the spec: executing one approved task (guarded
transition into `approved_executing`, then the executor loop from the
first action). -/
def executeApproved (env : Nat → Nat → HandlerOutcome) (id : Nat) (t : PipeTask) :
    PipeTask × List Nat :=
  executeFrom env id t.actionRefs 0
    { t with status := .approved_executing, approvals := t.approvals + 1, nextAction := 0 }

/-- Modelled from the spec: the scanner's per-task resolution (section 4.3
step 2): rejection wins, then approval executes, otherwise the task waits
untouched.  Non-`pending_approval` tasks are not the scanner's concern. -/
def resolveTask (env : Nat → Nat → HandlerOutcome) (id : Nat) (t : PipeTask) : PipeTask :=
  if t.status = .pending_approval then
    if t.rejectionMarker then
      { t with status := .rejected, location := .done }
    else if t.approvedFlag then
      (executeApproved env id t).fst
    else t
  else t

/-- Modelled from the spec: `scanOnce` (section 4.3) resolves every task
of the store sequentially. -/
def scanOnce (env : Nat → Nat → HandlerOutcome) (s : PipeStore) : PipeStore :=
  { s with tasks := fun id => (s.tasks id).map (resolveTask env id) }

/-!
## Theorems
-/

/-- C3: for every call to the `publish_social_post` (`post_linkedin`)
handler with content longer than 3000 characters, validation fails before
any network call is made: the handler returns a failure result and the
result contains no `postId`. -/
theorem c3_overlong_post_fails_before_network :
    ∀ (linkedinTestMode : Bool) (now : Nat) (api : LinkedInApiOutcome)
      (p : LinkedInParams) (c : String),
      p.content = some c → 3000 < c.length →
      (handlePostLinkedin linkedinTestMode now api p).result.success = false ∧
      (handlePostLinkedin linkedinTestMode now api p).result.postId? = none ∧
      (handlePostLinkedin linkedinTestMode now api p).networkCalled = false := by
  intro tm now api p c hc hlen
  obtain ⟨content, visibility⟩ := p
  simp only at hc
  subst hc
  by_cases htrim : (jsTrim c).isEmpty = true
  · simp [handlePostLinkedin, htrim, LinkedInResult.success, LinkedInResult.postId?]
  · have hd : ¬(c.data = []) := by
      intro h0
      exact absurd (by simp [jsTrim, String.toList, h0]) htrim
    simp [handlePostLinkedin, jsTruthy, htrim, hlen, hd,
      LinkedInResult.success, LinkedInResult.postId?]

/-- Witness for C3 at a concrete 3500-character content. -/
theorem c3_overlong_post_fails_before_network_witness :
    (handlePostLinkedin true 0 (LinkedInApiOutcome.ok none)
      { content := some (String.mk (List.replicate 3500 'x')), visibility := none
        }).result.success = false ∧
    (handlePostLinkedin true 0 (LinkedInApiOutcome.ok none)
      { content := some (String.mk (List.replicate 3500 'x')), visibility := none
        }).result.postId? = none ∧
    (handlePostLinkedin true 0 (LinkedInApiOutcome.ok none)
      { content := some (String.mk (List.replicate 3500 'x')), visibility := none
        }).networkCalled = false :=
  c3_overlong_post_fails_before_network true 0 (LinkedInApiOutcome.ok none)
    { content := some (String.mk (List.replicate 3500 'x')), visibility := none }
    (String.mk (List.replicate 3500 'x')) rfl (by norm_num [String.length])

/-- C4: for every call to the `send_email` handler whose `to` argument
fails the basic address-shape check, or with any of `to`, `subject`,
`body` missing, the handler returns a failure result classified as a
validation failure and no send is attempted. -/
theorem c4_email_validation_blocks_send :
    ∀ (defaultFrom : String) (testMode : Bool) (transporter : Option SmtpSendOutcome)
      (p : SendEmailParams),
      (jsTruthy p.toAddr = false ∨ jsTruthy p.subject = false ∨ jsTruthy p.body = false ∨
        emailRegexTest (p.toAddr.getD "") = false) →
      (handleSendEmail defaultFrom testMode transporter p).result.success = false ∧
      (handleSendEmail defaultFrom testMode transporter p).result.isValidationFailure = true ∧
      (handleSendEmail defaultFrom testMode transporter p).smtpCalled = false := by
  intro dfrom tm tr p h
  cases hta : jsTruthy p.toAddr with
  | false =>
      simp [handleSendEmail, hta, SendEmailResult.success, SendEmailResult.isValidationFailure]
  | true =>
    cases hsu : jsTruthy p.subject with
    | false =>
        simp [handleSendEmail, hta, hsu,
          SendEmailResult.success, SendEmailResult.isValidationFailure]
    | true =>
      cases hbo : jsTruthy p.body with
      | false =>
          simp [handleSendEmail, hta, hsu, hbo,
            SendEmailResult.success, SendEmailResult.isValidationFailure]
      | true =>
        have hr : emailRegexTest (p.toAddr.getD "") = false := by
          rcases h with h | h | h | h <;> simp_all
        simp [handleSendEmail, hta, hsu, hbo, hr,
          SendEmailResult.success, SendEmailResult.isValidationFailure]

/-- Witness for C4 at `to = "not-an-email"`. -/
theorem c4_email_validation_blocks_send_witness :
    (handleSendEmail "ai-employee@example.com" true none
      { toAddr := some "not-an-email", subject := some "S", body := some "B",
        fromAddr := none, html := false }).result.success = false ∧
    (handleSendEmail "ai-employee@example.com" true none
      { toAddr := some "not-an-email", subject := some "S", body := some "B",
        fromAddr := none, html := false }).result.isValidationFailure = true ∧
    (handleSendEmail "ai-employee@example.com" true none
      { toAddr := some "not-an-email", subject := some "S", body := some "B",
        fromAddr := none, html := false }).smtpCalled = false :=
  c4_email_validation_blocks_send "ai-employee@example.com" true none
    { toAddr := some "not-an-email", subject := some "S", body := some "B",
      fromAddr := none, html := false }
    (by decide)

/-! ### Invariants of the pipeline machine -/

theorem set_tasks_eq (s : PipeStore) (id : Nat) (t : PipeTask) :
    (s.set id t).tasks id = some t := by
  simp [PipeStore.set]

theorem set_tasks_ne (s : PipeStore) (id : Nat) (t : PipeTask) {j : Nat} (h : j ≠ id) :
    (s.set id t).tasks j = s.tasks j := by
  simp [PipeStore.set, h]

/-- Appending one event to the trace adds one to the matching counter. -/
theorem invokeCount_trace {s s' : PipeStore} {ev : AuditEvent}
    (h : s'.trace = s.trace ++ [ev]) (id k : Nat) :
    invokeCount s' id k =
      invokeCount s id k + (if isInvokeOf id k ev = true then 1 else 0) := by
  simp only [invokeCount, h, List.filter_append, List.length_append]
  split
  · rename_i hev
    simp [List.filter, hev]
  · rename_i hev
    have hf : isInvokeOf id k ev = false := by simpa using hev
    simp [List.filter, hf]

/-- No events mention an id all trace events are below. -/
theorem invokeCount_eq_zero {s : PipeStore} {id : Nat}
    (h : ∀ e ∈ s.trace, e.taskId < id) (k : Nat) : invokeCount s id k = 0 := by
  simp only [invokeCount, List.length_eq_zero]
  rw [List.filter_eq_nil_iff]
  intro e he
  have := h e he
  simp [isInvokeOf]
  intro h0
  omega

/-- Per-task safety facts preserved by every step: a task referencing a
marked action is `approvalRequired`; a required task that has left
`created` has been through `pending_approval`; a required task that is
`approved_executing` carries a (human-set) `approvedFlag`. -/
def taskOk (t : PipeTask) : Prop :=
  (t.actionRefs.any registryAlwaysRequiresApproval = true → t.approvalRequired = true) ∧
  (t.approvalRequired = true → t.status ≠ Status.created → t.visitedPending = true) ∧
  (t.approvalRequired = true → t.status = Status.approved_executing → t.approvedFlag = true)

/-- Per-task counting facts relating the ghost trace to the approval
counter: invocations of any action index never outnumber the approval
events; an executing task has spent at most `approvals - 1` invocations on
indices at or past its cursor and at least one on every index before it;
a completed task has invoked every action at least once. -/
def countOk (s : PipeStore) (id : Nat) (t : PipeTask) : Prop :=
  t.approvalRequired = true →
    (∀ k, invokeCount s id k ≤ t.approvals) ∧
    (t.status = Status.approved_executing →
       1 ≤ t.approvals ∧
       (∀ k, t.nextAction ≤ k → invokeCount s id k + 1 ≤ t.approvals) ∧
       (∀ k, k < t.nextAction → 1 ≤ invokeCount s id k)) ∧
    (t.status = Status.completed →
       ∀ k, k < t.actionRefs.length → 1 ≤ invokeCount s id k)

/-- The global machine invariant: ids are bounded by the id counter,
events reference existing tasks and record their `marked` bit truthfully,
invocation events of required tasks happened after `pending_approval` with
the flag set, and every task satisfies the per-task facts. -/
def Inv (s : PipeStore) : Prop :=
  (∀ id, s.nextId ≤ id → s.tasks id = none) ∧
  (∀ e ∈ s.trace, e.taskId < s.nextId) ∧
  (∀ e ∈ s.trace,
     (e.marked = true → e.required = true) ∧
     (e.required = true → e.visitedPending = true ∧ e.approvedFlag = true)) ∧
  (∀ e ∈ s.trace, ∀ u, s.tasks e.taskId = some u →
     e.marked = u.actionRefs.any registryAlwaysRequiresApproval) ∧
  (∀ id t, s.tasks id = some t → taskOk t ∧ countOk s id t)

/-- Updating one task without touching the trace preserves the invariant,
provided the new task keeps its action list, satisfies the per-task facts
and the counting facts. -/
theorem Inv.set {s : PipeStore} {id : Nat} {t t' : PipeTask}
    (hs : Inv s) (hget : s.tasks id = some t)
    (hrefs : t'.actionRefs = t.actionRefs)
    (htok : taskOk t')
    (hcok : countOk s id t') :
    Inv (s.set id t') := by
  obtain ⟨hbound, hevb, hevg, hevm, htasks⟩ := hs
  have hidlt : id < s.nextId := by
    by_contra hle
    rw [hbound id (Nat.le_of_not_lt hle)] at hget
    cases hget
  refine ⟨?_, hevb, hevg, ?_, ?_⟩
  · intro j hj
    have hj' : s.nextId ≤ j := hj
    have hne : j ≠ id := by omega
    rw [set_tasks_ne s id t' hne]
    exact hbound j hj' 
  · intro e he u hu
    by_cases hje : e.taskId = id
    · rw [hje, set_tasks_eq] at hu
      cases hu
      rw [hrefs]
      exact hevm e he t (by rw [hje]; exact hget)
    · rw [set_tasks_ne s id t' hje] at hu
      exact hevm e he u hu
  · intro j u hu
    by_cases hji : j = id
    · subst hji
      rw [set_tasks_eq] at hu
      cases hu
      exact ⟨htok, hcok⟩
    · rw [set_tasks_ne s id t' hji] at hu
      exact htasks j u hu

/-- Transfer of the counting facts along equal counters. -/
theorem countOk_of_count_eq {s s' : PipeStore} {id : Nat} {t : PipeTask}
    (h : ∀ k, invokeCount s' id k = invokeCount s id k)
    (hc : countOk s id t) : countOk s' id t := by
  intro hr
  obtain ⟨c1, c2, c3⟩ := hc hr
  refine ⟨fun k => h k ▸ c1 k, fun hst => ?_, fun hst k hk => h k ▸ c3 hst k hk⟩
  obtain ⟨d1, d2, d3⟩ := c2 hst
  exact ⟨d1, fun k hk => h k ▸ d2 k hk, fun k hk => h k ▸ d3 k hk⟩

theorem Inv.create {s : PipeStore} (hs : Inv s) (refs : List String)
    (payload : List (String × String)) (req : Bool) :
    Inv (applyCreate s refs payload req) := by
  obtain ⟨hbound, hevb, hevg, hevm, htasks⟩ := hs
  refine ⟨?_, ?_, hevg, ?_, ?_⟩
  · intro j hj
    have hj' : s.nextId + 1 ≤ j := hj
    show (if j = s.nextId then some (createTask refs payload req) else s.tasks j) = none
    rw [if_neg (by omega)]
    exact hbound j (by omega)
  · intro e he
    have := hevb e he
    show e.taskId < s.nextId + 1
    omega
  · intro e he u hu
    have hlt := hevb e he
    have hu' : (if e.taskId = s.nextId then some (createTask refs payload req)
        else s.tasks e.taskId) = some u := hu
    rw [if_neg (by omega)] at hu'
    exact hevm e he u hu'
  · intro j u hu
    have hu' : (if j = s.nextId then some (createTask refs payload req)
        else s.tasks j) = some u := hu
    by_cases hj : j = s.nextId
    · rw [if_pos hj] at hu'
      cases hu'
      constructor
      · refine ⟨?_, ?_, ?_⟩
        · intro hm
          show (refs.any registryAlwaysRequiresApproval || req) = true
          rw [show refs.any registryAlwaysRequiresApproval = true from hm]
          rfl
        · intro _ hst
          exact absurd rfl hst
        · intro _ hst
          exact Status.noConfusion hst
      · intro _
        refine ⟨?_, ?_, ?_⟩
        · intro k
          have h0 : invokeCount (applyCreate s refs payload req) j k = 0 :=
            invokeCount_eq_zero (fun e he => hj.symm ▸ hevb e he) k
          rw [h0]
          exact Nat.zero_le _
        · intro hst
          exact Status.noConfusion hst
        · intro hst
          exact Status.noConfusion hst
    · rw [if_neg hj] at hu'
      exact htasks j u hu'

theorem Inv.gate {s : PipeStore} (hs : Inv s) (id : Nat) : Inv (applyGate s id) := by
  unfold applyGate
  split
  · exact hs
  · rename_i t hget
    obtain ⟨htok, hcok⟩ := hs.2.2.2.2 id t hget
    split
    · rename_i hst
      split
      · rename_i hreq
        refine hs.set hget rfl ?_ ?_
        · exact ⟨fun hm => htok.1 hm, fun _ _ => rfl, fun _ h => Status.noConfusion h⟩
        · intro hr
          obtain ⟨c1, _, _⟩ := hcok hr
          exact ⟨c1, fun h => Status.noConfusion h, fun h => Status.noConfusion h⟩
      · rename_i hreq
        refine hs.set hget rfl ?_ ?_
        · exact ⟨fun hm => htok.1 hm, fun hr _ => absurd hr hreq, fun hr _ => absurd hr hreq⟩
        · intro hr
          exact absurd hr hreq
    · exact hs

theorem Inv.humanApprove {s : PipeStore} (hs : Inv s) (id : Nat) :
    Inv (applyHumanApprove s id) := by
  unfold applyHumanApprove
  split
  · exact hs
  · rename_i t hget
    obtain ⟨htok, hcok⟩ := hs.2.2.2.2 id t hget
    split
    · rename_i hst
      refine hs.set hget rfl ?_ hcok
      exact ⟨htok.1, fun hr hc => htok.2.1 hr hc, fun _ _ => rfl⟩
    · exact hs

theorem Inv.humanReject {s : PipeStore} (hs : Inv s) (id : Nat) :
    Inv (applyHumanReject s id) := by
  unfold applyHumanReject
  split
  · exact hs
  · rename_i t hget
    obtain ⟨htok, hcok⟩ := hs.2.2.2.2 id t hget
    split
    · exact hs.set hget rfl htok hcok
    · exact hs

theorem Inv.scanApprove {s : PipeStore} (hs : Inv s) (id : Nat) :
    Inv (applyScanApprove s id) := by
  unfold applyScanApprove
  split
  · exact hs
  · rename_i t hget
    obtain ⟨htok, hcok⟩ := hs.2.2.2.2 id t hget
    split
    · rename_i hg
      obtain ⟨hpend, hflag⟩ := hg
      refine hs.set hget rfl ?_ ?_
      · refine ⟨htok.1, ?_, fun _ _ => hflag⟩
        intro hr _
        exact htok.2.1 hr (by rw [hpend]; simp)
      · intro hr
        obtain ⟨c1, _, _⟩ := hcok hr
        refine ⟨fun k => Nat.le_succ_of_le (c1 k), ?_, ?_⟩
        · intro _
          refine ⟨Nat.succ_le_succ (Nat.zero_le _), ?_, ?_⟩
          · intro k _
            exact Nat.succ_le_succ (c1 k)
          · intro k hk
            exact absurd hk (Nat.not_lt_zero k)
        · intro h
          exact Status.noConfusion h
    · exact hs

theorem Inv.scanReject {s : PipeStore} (hs : Inv s) (id : Nat) :
    Inv (applyScanReject s id) := by
  unfold applyScanReject
  split
  · exact hs
  · rename_i t hget
    obtain ⟨htok, hcok⟩ := hs.2.2.2.2 id t hget
    split
    · rename_i hg
      refine hs.set hget rfl ?_ ?_
      · refine ⟨htok.1, ?_, fun _ h => Status.noConfusion h⟩
        intro hr _
        exact htok.2.1 hr (by rw [hg.1]; simp)
      · intro hr
        obtain ⟨c1, _, _⟩ := hcok hr
        exact ⟨c1, fun h => Status.noConfusion h, fun h => Status.noConfusion h⟩
    · exact hs

theorem Inv.operatorReset {s : PipeStore} (hs : Inv s) (id : Nat) :
    Inv (applyOperatorReset s id) := by
  unfold applyOperatorReset
  split
  · exact hs
  · rename_i t hget
    obtain ⟨htok, hcok⟩ := hs.2.2.2.2 id t hget
    split
    · rename_i hfl
      refine hs.set hget rfl ?_ ?_
      · refine ⟨htok.1, ?_, fun _ h => Status.noConfusion h⟩
        intro hr _
        exact htok.2.1 hr (by rw [hfl]; simp)
      · intro hr
        obtain ⟨c1, _, _⟩ := hcok hr
        exact ⟨c1, fun h => Status.noConfusion h, fun h => Status.noConfusion h⟩
    · exact hs

/-- The common part of the two traced branches of `applyInvoke`: updating
the invoked task and appending its audit event preserves the invariant,
given the per-task facts for the updated task; the event's fields are
characterized by the `hev*` hypotheses. -/
theorem Inv.invokeAux {s : PipeStore} {id : Nat} {t t' : PipeTask} {ev : AuditEvent}
    (hs : Inv s) (hget : s.tasks id = some t)
    (hex : t.status = Status.approved_executing)
    (hrefs : t'.actionRefs = t.actionRefs)
    (hevid : ev.taskId = id)
    (hevmk : ev.marked = t.actionRefs.any registryAlwaysRequiresApproval)
    (hevrq : ev.required = t.approvalRequired)
    (hevvp : ev.visitedPending = t.visitedPending)
    (hevfl : ev.approvedFlag = t.approvedFlag)
    (htok : taskOk t')
    (hcok : countOk { s.set id t' with trace := s.trace ++ [ev] } id t') :
    Inv { s.set id t' with trace := s.trace ++ [ev] } := by
  obtain ⟨hbound, hevb, hevg, hevm, htasks⟩ := hs
  obtain ⟨htokt, _⟩ := htasks id t hget
  have hidlt : id < s.nextId := by
    by_contra hle
    rw [hbound id (Nat.le_of_not_lt hle)] at hget
    cases hget
  refine ⟨?_, ?_, ?_, ?_, ?_⟩
  · intro j hj
    have hj' : s.nextId ≤ j := hj
    have hne : j ≠ id := by omega
    show (s.set id t').tasks j = none
    rw [set_tasks_ne s id t' hne]
    exact hbound j hj'
  · intro e he
    rcases List.mem_append.mp he with he | he
    · exact hevb e he
    · rcases List.mem_singleton.mp he with rfl
      rw [hevid]
      exact hidlt
  · intro e he
    rcases List.mem_append.mp he with he | he
    · exact hevg e he
    · rcases List.mem_singleton.mp he with rfl
      constructor
      · intro hm
        rw [hevmk] at hm
        rw [hevrq]
        exact htokt.1 hm
      · intro hr
        rw [hevrq] at hr
        rw [hevvp, hevfl]
        refine ⟨htokt.2.1 hr ?_, htokt.2.2 hr hex⟩
        rw [hex]
        simp
  · intro e he u hu
    have hu' : (s.set id t').tasks e.taskId = some u := hu
    rcases List.mem_append.mp he with he | he
    · by_cases hje : e.taskId = id
      · rw [hje, set_tasks_eq] at hu'
        cases hu'
        rw [hrefs]
        exact hevm e he t (by rw [hje]; exact hget)
      · rw [set_tasks_ne s id t' hje] at hu'
        exact hevm e he u hu'
    · rcases List.mem_singleton.mp he with rfl
      rw [hevid, set_tasks_eq] at hu'
      cases hu'
      rw [hevmk, hrefs]
  · intro j u hu
    have hu' : (s.set id t').tasks j = some u := hu
    by_cases hji : j = id
    · subst hji
      rw [set_tasks_eq] at hu'
      cases hu'
      exact ⟨htok, hcok⟩
    · rw [set_tasks_ne s id t' hji] at hu'
      refine ⟨(htasks j u hu').1, ?_⟩
      refine countOk_of_count_eq ?_ (htasks j u hu').2
      intro k
      rw [invokeCount_trace rfl j k]
      have hno : isInvokeOf j k ev = false := by
        simp [isInvokeOf, hevid]
        intro h
        exact absurd h.symm hji
      rw [hno]
      simp


theorem Inv.invoke {s : PipeStore} (hs : Inv s) (env : Nat → Nat → HandlerOutcome)
    (id : Nat) : Inv (applyInvoke env s id) := by
  unfold applyInvoke
  split
  · exact hs
  · rename_i t hget
    obtain ⟨htok, hcok⟩ := hs.2.2.2.2 id t hget
    split
    · rename_i hex
      have hnc : t.status ≠ Status.created := by rw [hex]; simp
      split
      · rename_i hnone
        have hlen : t.actionRefs.length ≤ t.nextAction := by simpa using hnone
        refine hs.set hget rfl ?_ ?_
        · exact ⟨htok.1, fun hr _ => htok.2.1 hr hnc, fun _ h => Status.noConfusion h⟩
        · intro hr
          obtain ⟨c1, c2, _⟩ := hcok hr
          refine ⟨c1, fun h => Status.noConfusion h, ?_⟩
          intro _ k hk
          have hk' : k < t.actionRefs.length := hk
          exact (c2 hex).2.2 k (by omega)
      · rename_i a ha
        split
        · rename_i hreg
          refine hs.set hget rfl ?_ ?_
          · exact ⟨htok.1, fun hr _ => htok.2.1 hr hnc, fun _ h => Status.noConfusion h⟩
          · intro hr
            obtain ⟨c1, _, _⟩ := hcok hr
            exact ⟨c1, fun h => Status.noConfusion h, fun h => Status.noConfusion h⟩
        · rename_i b hreg
          have hcnt : ∀ (t' : PipeTask) (k : Nat),
              invokeCount { s.set id t' with trace := s.trace ++
                [{ taskId := id, actionIdx := t.nextAction, action := a,
                   marked := t.actionRefs.any registryAlwaysRequiresApproval,
                   required := t.approvalRequired,
                   visitedPending := t.visitedPending,
                   approvedFlag := t.approvedFlag }] } id k
              = invokeCount s id k + if t.nextAction = k then 1 else 0 := by
            intro t' k
            rw [invokeCount_trace rfl id k]
            congr 1
            by_cases hk : t.nextAction = k
            · simp [isInvokeOf, hk]
            · simp [isInvokeOf, hk]
          split
          · rename_i detail hok
            split
            · rename_i hlast
              refine Inv.invokeAux hs hget hex rfl rfl rfl rfl rfl rfl ?_ ?_
              · exact ⟨htok.1, fun hr _ => htok.2.1 hr hnc, fun _ h => Status.noConfusion h⟩
              · intro hr
                obtain ⟨c1, c2, _⟩ := hcok hr
                obtain ⟨d1, d2, d3⟩ := c2 hex
                refine ⟨?_, fun h => Status.noConfusion h, ?_⟩
                · intro k
                  rw [hcnt _ k]
                  by_cases hk : t.nextAction = k
                  · rw [if_pos hk]
                    exact d2 k (Nat.le_of_eq hk)
                  · rw [if_neg hk]
                    simpa using c1 k
                · intro _ k hk
                  rw [hcnt _ k]
                  by_cases hk2 : t.nextAction = k
                  · rw [if_pos hk2]
                    omega
                  · rw [if_neg hk2]
                    have hklen : k < t.actionRefs.length := hk
                    have : k < t.nextAction := by omega
                    simpa using d3 k this
            · rename_i hlast
              refine Inv.invokeAux hs hget hex rfl rfl rfl rfl rfl rfl ?_ ?_
              · exact ⟨htok.1, fun hr _ => htok.2.1 hr hnc, fun hr h => htok.2.2 hr h⟩
              · intro hr
                obtain ⟨c1, c2, c3⟩ := hcok hr
                obtain ⟨d1, d2, d3⟩ := c2 hex
                refine ⟨?_, ?_, ?_⟩
                · intro k
                  rw [hcnt _ k]
                  by_cases hk : t.nextAction = k
                  · rw [if_pos hk]
                    exact d2 k (Nat.le_of_eq hk)
                  · rw [if_neg hk]
                    simpa using c1 k
                · intro _
                  refine ⟨d1, ?_, ?_⟩
                  · intro k hk
                    have hk' : t.nextAction + 1 ≤ k := hk
                    rw [hcnt _ k, if_neg (by omega)]
                    simpa using d2 k (by omega)
                  · intro k hk
                    have hk' : k < t.nextAction + 1 := hk
                    rw [hcnt _ k]
                    by_cases hk2 : t.nextAction = k
                    · rw [if_pos hk2]
                      omega
                    · rw [if_neg hk2]
                      simpa using d3 k (by omega)
                · intro h
                  have h' : t.status = Status.completed := h
                  rw [hex] at h'
                  cases h' 
          · rename_i err hfail
            refine Inv.invokeAux hs hget hex rfl rfl rfl rfl rfl rfl ?_ ?_
            · exact ⟨htok.1, fun hr _ => htok.2.1 hr hnc, fun _ h => Status.noConfusion h⟩
            · intro hr
              obtain ⟨c1, c2, _⟩ := hcok hr
              obtain ⟨d1, d2, d3⟩ := c2 hex
              refine ⟨?_, fun h => Status.noConfusion h, fun h => Status.noConfusion h⟩
              intro k
              rw [hcnt _ k]
              by_cases hk : t.nextAction = k
              · rw [if_pos hk]
                exact d2 k (Nat.le_of_eq hk)
              · rw [if_neg hk]
                simpa using c1 k
    · exact hs

/-- The empty store satisfies the invariant. -/
theorem inv_init : Inv initStore := by
  refine ⟨fun _ _ => rfl, ?_, ?_, ?_, ?_⟩
  · intro e he
    cases he
  · intro e he
    cases he
  · intro e he
    cases he
  · intro id t h
    cases h

/-- Every reachable store satisfies the invariant. -/
theorem reachable_inv {env : Nat → Nat → HandlerOutcome} {s : PipeStore}
    (h : Reachable env s) : Inv s := by
  induction h with
  | init => exact inv_init
  | step _ hstep ih =>
      cases hstep with
      | create refs payload req => exact ih.create refs payload req
      | gate id => exact ih.gate id
      | humanApprove id => exact ih.humanApprove id
      | humanReject id => exact ih.humanReject id
      | scanApprove id => exact ih.scanApprove id
      | scanReject id => exact ih.scanReject id
      | invoke id => exact ih.invoke env id
      | operatorReset id => exact ih.operatorReset id

/-- The executor loop never leaves a task in `pending_approval`. -/
theorem executeFrom_status_ne_pending (env : Nat → Nat → HandlerOutcome) (id : Nat) :
    ∀ (rest : List String) (k : Nat) (t : PipeTask),
      (executeFrom env id rest k t).fst.status ≠ Status.pending_approval := by
  intro rest
  induction rest with
  | nil =>
      intro k t h
      cases h
  | cons a rest ih =>
      intro k t
      simp only [executeFrom]
      cases hra : actionRegistry a with
      | none =>
          intro h
          cases h
      | some b =>
        cases henv : env id k with
        | ok d => exact ih (k + 1) _
        | fail err =>
            intro h
            cases h

theorem executeApproved_status_ne_pending (env : Nat → Nat → HandlerOutcome)
    (id : Nat) (t : PipeTask) :
    (executeApproved env id t).fst.status ≠ Status.pending_approval :=
  executeFrom_status_ne_pending env id t.actionRefs 0 _

/-- The scanner's per-task resolution is idempotent: resolving a resolved
task changes nothing. -/
theorem resolveTask_idem (env : Nat → Nat → HandlerOutcome) (id : Nat) (t : PipeTask) :
    resolveTask env id (resolveTask env id t) = resolveTask env id t := by
  by_cases hp : t.status = Status.pending_approval
  · by_cases hrj : t.rejectionMarker = true
    · have h1 : resolveTask env id t = { t with status := .rejected, location := .done } := by
        simp [resolveTask, hp, hrj]
      rw [h1]
      simp [resolveTask]
    · by_cases hap : t.approvedFlag = true
      · have h1 : resolveTask env id t = (executeApproved env id t).fst := by
          simp [resolveTask, hp, hrj, hap]
        rw [h1]
        simp only [resolveTask]
        rw [if_neg (executeApproved_status_ne_pending env id t)]
      · have h1 : resolveTask env id t = t := by
          simp [resolveTask, hp, hrj, hap]
        rw [h1]
        exact h1
  · have h1 : resolveTask env id t = t := by
      simp [resolveTask, hp]
    rw [h1]
    exact h1

/-- A second scan with no intervening edit changes no task state. -/
theorem scanOnce_idem (env : Nat → Nat → HandlerOutcome) (s : PipeStore) :
    (scanOnce env (scanOnce env s)).tasks = (scanOnce env s).tasks := by
  funext id
  show ((s.tasks id).map (resolveTask env id)).map (resolveTask env id)
      = (s.tasks id).map (resolveTask env id)
  cases s.tasks id with
  | none => rfl
  | some t =>
      show some (resolveTask env id (resolveTask env id t)) = some (resolveTask env id t)
      rw [resolveTask_idem]

/-- The executor loop on remaining actions `rest` (head at absolute index
`k`): if every handler strictly before relative index `j` succeeds and
the one at `j` fails, processing stops at the failure: the task lands in
`execution_failed`, staying in `/Pending_Approval/`, with the error detail
recorded and the retry counter incremented, and exactly the action indices
`k..k+j` are invoked. -/
theorem executeFrom_first_failure (env : Nat → Nat → HandlerOutcome) (id : Nat) :
    ∀ (rest : List String) (j k : Nat) (t : PipeTask) (err : String),
      (∀ x ∈ rest, (actionRegistry x).isSome = true) →
      j < rest.length →
      (∀ i, i < j → ∃ d, env id (k + i) = HandlerOutcome.ok d) →
      env id (k + j) = HandlerOutcome.fail err →
      (executeFrom env id rest k t).fst.status = Status.execution_failed ∧
      (executeFrom env id rest k t).fst.retryCount = t.retryCount + 1 ∧
      (executeFrom env id rest k t).fst.executionResult = some err ∧
      (executeFrom env id rest k t).fst.location = TaskLocation.pendingApproval ∧
      (executeFrom env id rest k t).snd = consecutive k (j + 1) := by
  intro rest
  induction rest with
  | nil =>
      intro j k t err _ hj _ _
      exact absurd hj (by simp)
  | cons a rest ih =>
      intro j k t err hreg hj hok hfail
      have hrega : (actionRegistry a).isSome = true := hreg a (by simp)
      cases hra : actionRegistry a with
      | none =>
          rw [hra] at hrega
          cases hrega
      | some b =>
        cases j with
        | zero =>
            have h0 : env id k = HandlerOutcome.fail err := by simpa using hfail
            simp [executeFrom, hra, h0, consecutive]
        | succ j' =>
            obtain ⟨d, hd⟩ := hok 0 (Nat.succ_pos j')
            have hd' : env id k = HandlerOutcome.ok d := by simpa using hd
            have hrec := ih j' (k + 1)
              { t with executionResult := some d, nextAction := k + 1 } err
              (fun x hx => hreg x (by simp [hx]))
              (by simpa using hj)
              (fun i hi => by
                obtain ⟨d2, hd2⟩ := hok (i + 1) (Nat.succ_lt_succ hi)
                refine ⟨d2, ?_⟩
                rw [show k + 1 + i = k + (i + 1) from by omega]
                exact hd2)
              (by rw [show k + 1 + j' = k + (j' + 1) from by omega]; exact hfail)
            simp only [executeFrom, hra, hd']
            refine ⟨hrec.1, hrec.2.1, hrec.2.2.1, hrec.2.2.2.1, ?_⟩
            show k :: (executeFrom env id rest (k + 1)
              { t with executionResult := some d, nextAction := k + 1 }).snd
              = consecutive k (j' + 1 + 1)
            rw [hrec.2.2.2.2]
            rfl

/-- C6 counterexample: the call `post_linkedin(content: "", visibility:
"public")` has a visibility whose normalized form `PUBLIC` is in the fixed
set, yet the returned result carries no visibility value at all (content
validation fails first), contradicting the claim that any such call yields
the normalized value in the result. -/
theorem c6_visibility_counterexample :
    toUpperCase "public" = "PUBLIC" ∧
    (handlePostLinkedin true 0 (LinkedInApiOutcome.ok none)
      { content := some "", visibility := some "public" }).result.visibility? = none ∧
    (handlePostLinkedin true 0 (LinkedInApiOutcome.ok none)
      { content := some "", visibility := some "public" }).result.success = false := by
  decide

/-- C6 (amended): visibility is case-normalized (`toUpperCase`) and must
belong to `{PUBLIC, CONNECTIONS}`: a visibility whose normalized form is
outside the set yields a failure result with no network call; every
success result carries the normalized visibility, with an omitted
visibility defaulting to `PUBLIC`. -/
theorem c6_visibility_normalization :
    (∀ (linkedinTestMode : Bool) (now : Nat) (api : LinkedInApiOutcome)
       (p : LinkedInParams) (v : String),
       p.visibility = some v →
       toUpperCase v ≠ "PUBLIC" → toUpperCase v ≠ "CONNECTIONS" →
       (handlePostLinkedin linkedinTestMode now api p).result.success = false ∧
       (handlePostLinkedin linkedinTestMode now api p).networkCalled = false) ∧
    (∀ (linkedinTestMode : Bool) (now : Nat) (api : LinkedInApiOutcome)
       (p : LinkedInParams),
       (handlePostLinkedin linkedinTestMode now api p).result.success = true →
       (handlePostLinkedin linkedinTestMode now api p).result.visibility? =
         some (toUpperCase (p.visibility.getD "PUBLIC"))) := by
  constructor
  · intro tm now api p v hv h1 h2
    obtain ⟨content, visibility⟩ := p
    simp only at hv
    subst hv
    simp only [handlePostLinkedin, Option.getD_some]
    split
    · exact ⟨rfl, rfl⟩
    · split
      · exact ⟨rfl, rfl⟩
      · split
        · exact ⟨rfl, rfl⟩
        · rename_i hvis
          exfalso
          simp at hvis
          by_cases hp : toUpperCase v = "PUBLIC"
          · exact h1 hp
          · exact h2 (hvis hp)
  · intro tm now api p hs
    revert hs
    simp only [handlePostLinkedin]
    split
    · intro hs; cases hs
    · split
      · intro hs; cases hs
      · split
        · intro hs; cases hs
        · split
          · intro _; rfl
          · split
            · intro _; rfl
            · intro hs; cases hs
            · intro hs; cases hs

/-- Witness for the amended C6: an out-of-set visibility at a concrete
call, and an in-set lowercase visibility normalized in a concrete success. -/
theorem c6_visibility_normalization_witness :
    ((handlePostLinkedin true 0 (LinkedInApiOutcome.ok none)
        { content := some "hello", visibility := some "friends" }).result.success = false ∧
     (handlePostLinkedin true 0 (LinkedInApiOutcome.ok none)
        { content := some "hello", visibility := some "friends" }).networkCalled = false) ∧
    (handlePostLinkedin true 7 (LinkedInApiOutcome.ok none)
        { content := some "hello", visibility := some "connections" }).result.visibility? =
      some (toUpperCase ((some "connections" : Option String).getD "PUBLIC")) :=
  ⟨c6_visibility_normalization.1 true 0 (LinkedInApiOutcome.ok none)
      { content := some "hello", visibility := some "friends" } "friends" rfl
      (by decide) (by decide),
   c6_visibility_normalization.2 true 7 (LinkedInApiOutcome.ok none)
      { content := some "hello", visibility := some "connections" } (by decide)⟩

/-- C7 counterexample: in mock mode (no transporter) a valid `send_email`
call returns a successful result that contains no delivery reference
identifier (`messageId`), so not every successful invocation carries one. -/
theorem c7_mock_success_counterexample :
    (handleSendEmail "ai-employee@example.com" true none
      { toAddr := some "a@b.com", subject := some "S", body := some "B",
        fromAddr := none, html := false }).result.success = true ∧
    (handleSendEmail "ai-employee@example.com" true none
      { toAddr := some "a@b.com", subject := some "S", body := some "B",
        fromAddr := none, html := false }).result.messageId? = none := by
  decide

/-- C7 (amended): every successful `send_email` invocation that actually
performed a send (a transporter is configured and `sendMail` resolved)
returns a result carrying the delivery reference identifier (`messageId`);
mock-mode results never carry one. -/
theorem c7_delivery_reference :
    (∀ (defaultFrom : String) (testMode : Bool) (mid : String) (url : Option String)
       (p : SendEmailParams),
       (handleSendEmail defaultFrom testMode (some (SmtpSendOutcome.ok mid url))
         p).result.success = true →
       (handleSendEmail defaultFrom testMode (some (SmtpSendOutcome.ok mid url))
         p).result.messageId? = some mid) ∧
    (∀ (defaultFrom : String) (testMode : Bool) (p : SendEmailParams),
       (handleSendEmail defaultFrom testMode none p).result.messageId? = none) := by
  constructor
  · intro dfrom tm mid url p hs
    revert hs
    simp only [handleSendEmail]
    split
    · intro hs; cases hs
    · split
      · intro hs; cases hs
      · intro _; rfl
  · intro dfrom tm p
    simp only [handleSendEmail]
    split
    · rfl
    · split
      · rfl
      · rfl

/-- Witness for the amended C7 at a concrete live-mode success. -/
theorem c7_delivery_reference_witness :
    (handleSendEmail "ai-employee@example.com" false
        (some (SmtpSendOutcome.ok "msg-6ee0fa7f" none))
        { toAddr := some "test@example.com", subject := some "S", body := some "B",
          fromAddr := none, html := false }).result.messageId? = some "msg-6ee0fa7f" :=
  c7_delivery_reference.1 "ai-employee@example.com" false "msg-6ee0fa7f" none
    { toAddr := some "test@example.com", subject := some "S", body := some "B",
      fromAddr := none, html := false } (by decide)

/-- C5 counterexample: with the SMTP user absent the server is in test
mode, but if the Ethereal test-account creation succeeded the resulting
transporter is real and a valid `send_email` call performs external SMTP
I/O (`smtpCalled = true`); moreover the no-I/O mock success result is not
structurally identical to the live-mode success result (different field
sets: no `messageId`), so both halves of the claim fail for email. -/
theorem c5_simulated_mode_counterexample :
    computeTestMode false "" = true ∧
    (handleSendEmail "ai-employee@example.com" (computeTestMode false "")
        (initializeTransporter (computeTestMode false "") ""
          (some (SmtpSendOutcome.ok "ethereal-1" none))
          (SmtpSendOutcome.ok "unused" none))
        { toAddr := some "a@b.com", subject := some "S", body := some "B",
          fromAddr := none, html := false }).smtpCalled = true ∧
    (handleSendEmail "ai-employee@example.com" true none
        { toAddr := some "a@b.com", subject := some "S", body := some "B",
          fromAddr := none, html := false }).result.success = true ∧
    (handleSendEmail "ai-employee@example.com" true
        (some (SmtpSendOutcome.ok "m-1" none))
        { toAddr := some "a@b.com", subject := some "S", body := some "B",
          fromAddr := none, html := false }).result.success = true ∧
    (handleSendEmail "ai-employee@example.com" true none
        { toAddr := some "a@b.com", subject := some "S", body := some "B",
          fromAddr := none, html := false }).result.jsFields ≠
      (handleSendEmail "ai-employee@example.com" true
        (some (SmtpSendOutcome.ok "m-1" none))
        { toAddr := some "a@b.com", subject := some "S", body := some "B",
          fromAddr := none, html := false }).result.jsFields := by
  decide

/-- C5 (amended): for `publish_social_post`, absent credentials select
test mode, in which the handler performs no network I/O and every success
is annotated `mode = "test"`, carries the synthetic identifier
`demo-<timestamp>`, and contains every field of the live-mode success
shape.  For `send_email`, the handler performs no SMTP I/O exactly when no
transporter exists (mock mode), and every mock success is annotated as
mock-mode; absent SMTP credentials alone do not guarantee the no-I/O mock
path (the server may build an Ethereal transporter). -/
theorem c5_simulated_mode :
    (∀ (accessToken personUrn : String),
       accessToken = "" ∨ personUrn = "" →
       computeLinkedInTestMode accessToken personUrn = true) ∧
    (∀ (now : Nat) (api : LinkedInApiOutcome) (p : LinkedInParams),
       (handlePostLinkedin true now api p).networkCalled = false) ∧
    (∀ (now : Nat) (api : LinkedInApiOutcome) (p : LinkedInParams),
       (handlePostLinkedin true now api p).result.success = true →
       (handlePostLinkedin true now api p).result.mode? = some "test" ∧
       (handlePostLinkedin true now api p).result.postId? =
         some ("demo-" ++ toString now) ∧
       ∀ (pid purl vis : String) (n : Nat),
         (LinkedInResult.livePosted pid purl vis n).jsFields ⊆
           (handlePostLinkedin true now api p).result.jsFields) ∧
    (∀ (defaultFrom : String) (testMode : Bool) (p : SendEmailParams),
       (handleSendEmail defaultFrom testMode none p).smtpCalled = false) ∧
    (∀ (defaultFrom : String) (testMode : Bool) (p : SendEmailParams),
       (handleSendEmail defaultFrom testMode none p).result.success = true →
       ∃ d, (handleSendEmail defaultFrom testMode none p).result =
         SendEmailResult.mockLogged "Email logged (mock mode - no SMTP configured)" d) := by
  refine ⟨?_, ?_, ?_, ?_, ?_⟩
  · intro a u h
    rcases h with h | h <;> subst h <;> simp [computeLinkedInTestMode]
  · intro now api p
    simp only [handlePostLinkedin]
    split
    · rfl
    · split
      · rfl
      · split
        · rfl
        · rfl
  · intro now api p hs
    revert hs
    simp only [handlePostLinkedin]
    split
    · intro hs; cases hs
    · split
      · intro hs; cases hs
      · split
        · intro hs; cases hs
        · intro _
          refine ⟨rfl, rfl, ?_⟩
          intro pid purl vis n
          simp [LinkedInResult.jsFields]
  · intro dfrom tm p
    simp only [handleSendEmail]
    split
    · rfl
    · split
      · rfl
      · rfl
  · intro dfrom tm p hs
    revert hs
    simp only [handleSendEmail]
    split
    · intro hs; cases hs
    · split
      · intro hs; cases hs
      · intro _; exact ⟨_, rfl⟩

/-- Witness for the amended C5 at concrete calls in both simulated modes. -/
theorem c5_simulated_mode_witness :
    computeLinkedInTestMode "" "urn:li:person:X" = true ∧
    (handlePostLinkedin true 42 (LinkedInApiOutcome.ok none)
        { content := some "hello", visibility := none }).networkCalled = false ∧
    (handlePostLinkedin true 42 (LinkedInApiOutcome.ok none)
        { content := some "hello", visibility := none }).result.postId? =
      some ("demo-" ++ toString 42) ∧
    (handleSendEmail "ai-employee@example.com" true none
        { toAddr := some "a@b.com", subject := some "S", body := some "B",
          fromAddr := none, html := false }).smtpCalled = false :=
  ⟨c5_simulated_mode.1 "" "urn:li:person:X" (Or.inl rfl),
   c5_simulated_mode.2.1 42 (LinkedInApiOutcome.ok none)
     { content := some "hello", visibility := none },
   ((c5_simulated_mode.2.2.1 42 (LinkedInApiOutcome.ok none)
     { content := some "hello", visibility := none }) (by decide)).2.1,
   c5_simulated_mode.2.2.2.1 "ai-employee@example.com" true
     { toAddr := some "a@b.com", subject := some "S", body := some "B",
       fromAddr := none, html := false }⟩

/-- C8: a tool-call request whose name is not one of `send_email`,
`post_linkedin`, `check_email_config` is answered by the `default` case:
an unknown-tool error result with `isError` set, and no handler is
invoked. -/
theorem c8_unknown_tool_no_handler :
    ∀ (env : ServerEnv) (name : String) (args : ToolArguments),
      knownToolName name = false →
      handleCallToolRequest env name args =
        ({ content := .errorJson ("Unknown tool: " ++ name), isError := true }, []) := by
  intro env name args h
  simp [handleCallToolRequest, dispatchToolCall, h]

/-- Witness for C8 at a concrete unknown tool name. -/
theorem c8_unknown_tool_no_handler_witness :
    handleCallToolRequest
        { smtpHost := "smtp.ethereal.email", smtpPort := 587, smtpUser := "",
          defaultFrom := "ai-employee@example.com", testMode := true,
          transporter := none, verifyError := none, linkedinTestMode := true,
          now := 0, linkedinApi := LinkedInApiOutcome.ok none }
        "delete_all_files"
        { toAddr := none, subject := none, body := none, fromAddr := none,
          html := false, content := none, visibility := none } =
      ({ content := .errorJson ("Unknown tool: " ++ "delete_all_files"), isError := true },
        []) :=
  c8_unknown_tool_no_handler
    { smtpHost := "smtp.ethereal.email", smtpPort := 587, smtpUser := "",
      defaultFrom := "ai-employee@example.com", testMode := true,
      transporter := none, verifyError := none, linkedinTestMode := true,
      now := 0, linkedinApi := LinkedInApiOutcome.ok none }
    "delete_all_files"
    { toAddr := none, subject := none, body := none, fromAddr := none,
      html := false, content := none, visibility := none }
    (by decide)

/-- C10: the dispatcher is total: whatever the matched handler does —
including throwing, modelled as `run name = .error msg` — the server
answers with a result object: the thrown message wrapped in an `isError`
content result for a known tool, the unknown-tool error otherwise; the
exception never propagates. -/
theorem c10_dispatcher_total :
    ∀ (name : String) (run : String → Except String ToolResult) (msg : String),
      run name = Except.error msg →
      (dispatchToolCall name run).fst.isError = true ∧
      ((dispatchToolCall name run).fst.content = ToolCallContent.errorJson msg ∨
       (dispatchToolCall name run).fst.content =
         ToolCallContent.errorJson ("Unknown tool: " ++ name)) := by
  intro name run msg h
  by_cases hk : knownToolName name = true
  · simp [dispatchToolCall, hk, h]
  · simp [dispatchToolCall, hk]

/-- Witness for C10: a throwing `send_email` handler is wrapped, not
propagated. -/
theorem c10_dispatcher_total_witness :
    (dispatchToolCall "send_email"
        (fun _ => Except.error "boom")).fst.isError = true ∧
    ((dispatchToolCall "send_email" (fun _ => Except.error "boom")).fst.content =
        ToolCallContent.errorJson "boom" ∨
     (dispatchToolCall "send_email" (fun _ => Except.error "boom")).fst.content =
        ToolCallContent.errorJson ("Unknown tool: " ++ "send_email")) :=
  c10_dispatcher_total "send_email" (fun _ => Except.error "boom") "boom" rfl

/-- C1: a task any of whose referenced actions is marked
`alwaysRequiresApproval` (send_email, publish_social_post/post_linkedin)
is classified `approvalRequired` at creation — the classification reads
only the action references and the originator's explicit gating request,
never the payload, and the originator can only force gating on, so the
requirement cannot be overridden by the task's payload.  In every
reachable store, every recorded handler invocation of such a task carries
ghost witnesses that the task had already visited `pending_approval`
(`e.visitedPending`) and had `approvedFlag = true` (`e.approvedFlag`) at
the moment the handler was invoked. -/
theorem c1_approval_gated_before_execution :
    (∀ (refs : List String) (payload : List (String × String)) (requestedGate : Bool),
       refs.any registryAlwaysRequiresApproval = true →
       (createTask refs payload requestedGate).approvalRequired = true) ∧
    (∀ (env : Nat → Nat → HandlerOutcome) (s : PipeStore), Reachable env s →
       ∀ (id : Nat) (t : PipeTask), s.tasks id = some t →
         t.actionRefs.any registryAlwaysRequiresApproval = true →
         t.approvalRequired = true ∧
         ∀ e ∈ s.trace, e.taskId = id →
           e.visitedPending = true ∧ e.approvedFlag = true) := by
  constructor
  · intro refs payload req hm
    show (refs.any registryAlwaysRequiresApproval || req) = true
    rw [hm]
    rfl
  · intro env s hr id t hget hm
    obtain ⟨_, _, hevg, hevm, htasks⟩ := reachable_inv hr
    have hreq : t.approvalRequired = true := (htasks id t hget).1.1 hm
    refine ⟨hreq, ?_⟩
    intro e he hid
    have hmk : e.marked = true := by
      rw [hevm e he t (by rw [hid]; exact hget), hm]
    exact (hevg e he).2 ((hevg e he).1 hmk)

/-- Witness scaffolding: a concrete run of the machine — create a
send_email task, gate it, approve it, scan it, execute it. -/
def envOkW : Nat → Nat → HandlerOutcome :=
  fun _ _ => HandlerOutcome.ok "Success - email sent (ID: abc123)"

def storeW1 : PipeStore := applyCreate initStore ["send_email"] [("to", "a@b.com")] false

def storeW2 : PipeStore := applyGate storeW1 0

def storeW3 : PipeStore := applyHumanApprove storeW2 0

def storeW4 : PipeStore := applyScanApprove storeW3 0

def storeW5 : PipeStore := applyInvoke envOkW storeW4 0

theorem reachable_storeW5 : Reachable envOkW storeW5 :=
  Reachable.step
    (Reachable.step
      (Reachable.step
        (Reachable.step
          (Reachable.step Reachable.init
            (PipeStep.create initStore ["send_email"] [("to", "a@b.com")] false))
          (PipeStep.gate storeW1 0))
        (PipeStep.humanApprove storeW2 0))
      (PipeStep.scanApprove storeW3 0))
    (PipeStep.invoke storeW4 0)

/-- The task of the witness run after execution. -/
def taskW5 : PipeTask :=
  { actionRefs := ["send_email"], payload := [("to", "a@b.com")],
    status := .completed, approvalRequired := true, approvedFlag := true,
    rejectionMarker := false, retryCount := 0,
    executionResult := some "Success - email sent (ID: abc123)", nextAction := 1,
    visitedPending := true, approvals := 1, location := .done }

/-- The single invocation event of the witness run. -/
def evW5 : AuditEvent :=
  { taskId := 0, actionIdx := 0, action := "send_email", marked := true,
    required := true, visitedPending := true, approvedFlag := true }

/-- Witness for C1 on the concrete run. -/
theorem c1_approval_gated_before_execution_witness :
    (createTask ["send_email"] [("to", "a@b.com")] false).approvalRequired = true ∧
    evW5.visitedPending = true ∧ evW5.approvedFlag = true :=
  ⟨c1_approval_gated_before_execution.1 ["send_email"] [("to", "a@b.com")] false (by decide),
   (c1_approval_gated_before_execution.2 envOkW storeW5 reachable_storeW5 0 taskW5
      (by decide) (by decide)).2 evW5 (by decide) (by decide)⟩

/-- C2: in every reachable store — i.e. under any interleaving of any
number of concurrent scanner cycles, executor steps and human edits —
a task whose approval was consumed exactly once (`approvals = 1`) has each
action index invoked at most once, and exactly once for each of its
actions if it completed; and a second sequential scan over a store with no
intervening human edit leaves every task state unchanged. -/
theorem c2_exactly_once_and_idempotent_scan :
    (∀ (env : Nat → Nat → HandlerOutcome) (s : PipeStore), Reachable env s →
       ∀ (id : Nat) (t : PipeTask), s.tasks id = some t →
         t.approvalRequired = true → t.approvals = 1 →
         (∀ k, invokeCount s id k ≤ 1) ∧
         (t.status = Status.completed →
            ∀ k, k < t.actionRefs.length → invokeCount s id k = 1)) ∧
    (∀ (env : Nat → Nat → HandlerOutcome) (s : PipeStore),
       (scanOnce env (scanOnce env s)).tasks = (scanOnce env s).tasks) := by
  constructor
  · intro env s hr id t hget hreq hone
    obtain ⟨c1, _, c3⟩ := ((reachable_inv hr).2.2.2.2 id t hget).2 hreq
    refine ⟨fun k => hone ▸ c1 k, ?_⟩
    intro hst k hk
    exact Nat.le_antisymm (hone ▸ c1 k) (c3 hst k hk)
  · exact scanOnce_idem

/-- Witness for C2 on the concrete run: the single action was invoked
exactly once, and re-scanning the store is a no-op on task state. -/
theorem c2_exactly_once_and_idempotent_scan_witness :
    invokeCount storeW5 0 0 ≤ 1 ∧ invokeCount storeW5 0 0 = 1 ∧
    (scanOnce envOkW (scanOnce envOkW storeW5)).tasks = (scanOnce envOkW storeW5).tasks :=
  ⟨(c2_exactly_once_and_idempotent_scan.1 envOkW storeW5 reachable_storeW5 0 taskW5
      (by decide) (by decide) (by decide)).1 0,
   (c2_exactly_once_and_idempotent_scan.1 envOkW storeW5 reachable_storeW5 0 taskW5
      (by decide) (by decide) (by decide)).2 (by decide) 0 (by decide),
   c2_exactly_once_and_idempotent_scan.2 envOkW storeW5⟩

/-- C9: an approved task (pending with `approvedFlag`, no rejection)
whose registered handlers succeed up to index `j` and fail at `j` is
resolved by the scanner into `execution_failed`: the error detail is
recorded in `executionResult`, `retryCount` is incremented, exactly the
actions `0..j` were invoked (the remaining ones are not), the task file
stays in `/Pending_Approval/` (not archived to `/Done/`), and a further
scan leaves it untouched — only a human (operator reset) can move it. -/
theorem c9_failure_stops_and_parks :
    ∀ (env : Nat → Nat → HandlerOutcome) (id : Nat) (t : PipeTask) (j : Nat) (err : String),
      t.status = Status.pending_approval →
      t.approvedFlag = true →
      t.rejectionMarker = false →
      (∀ x ∈ t.actionRefs, (actionRegistry x).isSome = true) →
      j < t.actionRefs.length →
      (∀ i, i < j → ∃ d, env id i = HandlerOutcome.ok d) →
      env id j = HandlerOutcome.fail err →
      (resolveTask env id t).status = Status.execution_failed ∧
      (resolveTask env id t).retryCount = t.retryCount + 1 ∧
      (resolveTask env id t).executionResult = some err ∧
      (resolveTask env id t).location = TaskLocation.pendingApproval ∧
      (executeApproved env id t).snd = consecutive 0 (j + 1) ∧
      resolveTask env id (resolveTask env id t) = resolveTask env id t := by
  intro env id t j err hp hap hrj hreg hj hok hfail
  have hres : resolveTask env id t = (executeApproved env id t).fst := by
    simp [resolveTask, hp, hrj, hap]
  have hmain := executeFrom_first_failure env id t.actionRefs j 0
    { t with status := .approved_executing, approvals := t.approvals + 1, nextAction := 0 }
    err hreg hj (fun i hi => by simpa using hok i hi) (by simpa using hfail)
  rw [hres]
  refine ⟨hmain.1, hmain.2.1, hmain.2.2.1, hmain.2.2.2.1, hmain.2.2.2.2, ?_⟩
  have hst : (executeApproved env id t).fst.status = Status.execution_failed := hmain.1
  simp [resolveTask, hst]

/-- Witness scaffolding for C9: a two-action approved task whose first
handler fails. -/
def envFailW : Nat → Nat → HandlerOutcome :=
  fun _ _ => HandlerOutcome.fail "Error: SMTP connection refused"

def taskFailW : PipeTask :=
  { actionRefs := ["send_email", "post_linkedin"], payload := [],
    status := .pending_approval, approvalRequired := true, approvedFlag := true,
    rejectionMarker := false, retryCount := 0, executionResult := none,
    nextAction := 0, visitedPending := true, approvals := 0,
    location := .pendingApproval }

/-- Witness for C9 at the concrete failing task: only action 0 is
invoked, action 1 is not. -/
theorem c9_failure_stops_and_parks_witness :
    (resolveTask envFailW 7 taskFailW).status = Status.execution_failed ∧
    (resolveTask envFailW 7 taskFailW).retryCount = taskFailW.retryCount + 1 ∧
    (resolveTask envFailW 7 taskFailW).executionResult =
      some "Error: SMTP connection refused" ∧
    (resolveTask envFailW 7 taskFailW).location = TaskLocation.pendingApproval ∧
    (executeApproved envFailW 7 taskFailW).snd = consecutive 0 (0 + 1) ∧
    resolveTask envFailW 7 (resolveTask envFailW 7 taskFailW) =
      resolveTask envFailW 7 taskFailW :=
  c9_failure_stops_and_parks envFailW 7 taskFailW 0 "Error: SMTP connection refused"
    rfl rfl rfl (by decide) (by decide)
    (fun i hi => absurd hi (Nat.not_lt_zero i)) rfl

end SilverTier
